import Mathlib

/-!
Verification development for the MeuGestosAcoes trade-tracking application.

The repository contains two revisions of the same Streamlit application,
`app.py` and `app_2.py`.  The accounting core of each revision is embedded
shallowly below: `App` holds the model of `app.py` (validation, daily
day-trade/swing-trade matching, average-cost ledger) and `App2` holds the
model of `app_2.py` (the same engine extended with brokerage/exchange fees,
asset classification, a short-sale pre-save check and the monthly income-tax
aggregation `calcular_ir_completo`).

Conventions of the embedding:
* money amounts and unit prices are rationals (`Rat`);
* quantities are integers (`Int`): the ledger quantity may go negative;
* calendar dates are encoded as natural numbers in `YYYYMMDD` form, so the
  month key `%Y-%m` of a date is obtained by dividing by 100 (`mesOf`);
* a pandas dataframe of transactions is a `List Op`, kept in the order the
  SQL query returns; the per-instrument control dictionary is a total
  function `String → Pos` whose default entry is `{qtd := 0, pm := 0}`,
  matching the lazy initialisation in the source;
* `Series.mean()` over the selected rows becomes `media` (sum divided by
  the number of selected rows -- an unweighted mean over transactions).
-/

inductive Tipo
  | compra
  | venda
deriving DecidableEq

inductive TipoOp
  | dayTrade
  | swingTrade
deriving DecidableEq

inductive TipoAtivo
  | fii
  | bdr
  | acao
deriving DecidableEq

/-- Transaction record: one row of the `operacoes` table.  `app.py` has no
fee columns; its model simply never reads the two `taxa` fields. -/
structure Op where
  data : Nat
  hora : Nat
  ticket : String
  tipo : Tipo
  quantidade : Int
  valor : Rat
  taxa_corretagem : Rat
  taxa_emolumentos : Rat
deriving DecidableEq

/-- Month key of a date: the `%Y-%m` part of a `YYYYMMDD` date. -/
def mesOf (d : Nat) : Nat := d / 100

/-- Unweighted arithmetic mean of a list of rationals, the model of
`pandas.Series.mean()` over the selected rows. -/
def media (l : List Rat) : Rat := l.sum / (l.length : Rat)

/-- Model of `pandas.Series.unique()`: first occurrence order, duplicates
dropped. -/
def uniqueFirst (l : List String) : List String :=
  l.foldl (fun acc x => if x ∈ acc then acc else acc ++ [x]) []

/-- One entry of the per-instrument control dictionary: running quantity and
weighted-average unit cost. -/
structure Pos where
  qtd : Int
  pm : Rat
deriving DecidableEq

/-- Model of Python `str.upper()` as a character-list transformation. -/
def upperChars (s : String) : List Char := s.data.map Char.toUpper

/-- Model of Python `str.strip()`: drop whitespace from both ends of the
character list. -/
def stripChars (cs : List Char) : List Char :=
  ((cs.dropWhile Char.isWhitespace).reverse.dropWhile Char.isWhitespace).reverse

/-- Model of Python `str.endswith(suf)` on a character list. -/
def terminaCom (cs : List Char) (suf : String) : Bool := decide (suf.data <:+ cs)

/-- Classification of a ticker into FII / BDR / common share, from
`identificar_tipo_ativo` in `app_2.py`. -/
def identificar_tipo_ativo (ticket : String) : TipoAtivo :=
  let t := upperChars ticket
  if terminaCom t ("11") then TipoAtivo.fii
  else if terminaCom t ("34") || terminaCom t ("35") || terminaCom t ("39")
      || terminaCom t ("32") || terminaCom t ("33") || terminaCom t ("31") then TipoAtivo.bdr
  else if t = ("BSLV39").data then TipoAtivo.bdr
  else TipoAtivo.acao

def isLetraMaiuscula (c : Char) : Bool := decide ('A' ≤ c) && decide (c ≤ 'Z')

def isDigito (c : Char) : Bool := decide ('0' ≤ c) && decide (c ≤ '9')

/-- Boolean matcher for the ticker regular expression of `app.py`,
four capital letters followed by one or two digits, anchored on both ends. -/
def match_padrao (cs : List Char) : Bool :=
  match cs with
  | a :: b :: c :: d :: resto =>
      isLetraMaiuscula a && isLetraMaiuscula b && isLetraMaiuscula c && isLetraMaiuscula d
        && (decide (resto.length = 1) || decide (resto.length = 2))
        && resto.all isDigito
  | _ => false

/-- Declarative reading of the ticker shape rule: the character list splits
as four capital letters followed by one or two digits. -/
def PadraoTicker (cs : List Char) : Prop :=
  ∃ a b c d resto, cs = a :: b :: c :: d :: resto
    ∧ isLetraMaiuscula a = true ∧ isLetraMaiuscula b = true
    ∧ isLetraMaiuscula c = true ∧ isLetraMaiuscula d = true
    ∧ (resto.length = 1 ∨ resto.length = 2)
    ∧ ∀ x ∈ resto, isDigito x = true

namespace App

/-- Model of `validar_ticket` from `app.py`: normalise (uppercase, strip)
and test the ticker pattern; the second component is the error message. -/
def validar_ticket (tkt : String) : Bool × String :=
  if tkt = ("") ∨ stripChars tkt.data = [] then
    (false, "O campo Ticket nao pode estar vazio.")
  else
    let tkt_limpo := stripChars (upperChars tkt)
    if match_padrao tkt_limpo then (true, "")
    else (false, "Ticket invalido.")

/-- Rows of the day belonging to one ticker (`ops_tkt_dia` in the source). -/
def ops_tkt_dia (opsDia : List Op) (tkt : String) : List Op :=
  opsDia.filter (fun o => o.ticket = tkt)

/-- Total bought quantity of the ticker on the day (`q_compra_dia`). -/
def q_compra_dia (opsDia : List Op) (tkt : String) : Int :=
  (((ops_tkt_dia opsDia tkt).filter (fun o => o.tipo = Tipo.compra)).map (·.quantidade)).sum

/-- Total sold quantity of the ticker on the day (`q_venda_dia`). -/
def q_venda_dia (opsDia : List Op) (tkt : String) : Int :=
  (((ops_tkt_dia opsDia tkt).filter (fun o => o.tipo = Tipo.venda)).map (·.quantidade)).sum

/-- Mean buy price of the ticker on the day (`v_compra_medio`): unweighted
mean over the day's buy rows. -/
def v_compra_medio (opsDia : List Op) (tkt : String) : Rat :=
  media (((ops_tkt_dia opsDia tkt).filter (fun o => o.tipo = Tipo.compra)).map (·.valor))

/-- Mean sell price of the ticker on the day (`v_venda_medio`). -/
def v_venda_medio (opsDia : List Op) (tkt : String) : Rat :=
  media (((ops_tkt_dia opsDia tkt).filter (fun o => o.tipo = Tipo.venda)).map (·.valor))

/-- One realized-sale record appended to `vendas_realizadas` in `app.py`. -/
structure Venda where
  data : Nat
  ticket : String
  tipo : TipoOp
  qtd : Int
  resultado : Rat
  volumeVenda : Rat
  mes : Nat
deriving DecidableEq

/-- Body of the inner `for tkt in df_dia['ticket'].unique()` loop of
`calcular_tudo` in `app.py`: day-trade matching, residual-buy absorption
into the average cost, residual-sell realization. -/
def processTicketDia (dataDia : Nat) (opsDia : List Op) (tkt : String) (pos : Pos) :
    Pos × List Venda :=
  let q_c := q_compra_dia opsDia tkt
  let q_v := q_venda_dia opsDia tkt
  let qtd_dt := min q_c q_v
  let vendasDT : List Venda :=
    if 0 < qtd_dt then
      [{ data := dataDia, ticket := tkt, tipo := TipoOp.dayTrade, qtd := qtd_dt,
         resultado := (v_venda_medio opsDia tkt - v_compra_medio opsDia tkt) * (qtd_dt : Rat),
         volumeVenda := (qtd_dt : Rat) * v_venda_medio opsDia tkt,
         mes := mesOf dataDia }]
    else []
  let sobra_compra := q_c - qtd_dt
  let pos1 : Pos :=
    if 0 < sobra_compra then
      let total_fin := (pos.qtd : Rat) * pos.pm + (sobra_compra : Rat) * v_compra_medio opsDia tkt
      { qtd := pos.qtd + sobra_compra, pm := total_fin / ((pos.qtd + sobra_compra : Int) : Rat) }
    else pos
  let sobra_venda := q_v - qtd_dt
  if 0 < sobra_venda then
    ({ pos1 with qtd := pos1.qtd - sobra_venda },
      vendasDT ++
        [{ data := dataDia, ticket := tkt, tipo := TipoOp.swingTrade, qtd := sobra_venda,
           resultado := (v_venda_medio opsDia tkt - pos1.pm) * (sobra_venda : Rat),
           volumeVenda := (sobra_venda : Rat) * v_venda_medio opsDia tkt,
           mes := mesOf dataDia }])
  else (pos1, vendasDT)

/-- One day of `calcular_tudo` in `app.py`: iterate the tickers present on
the day in first-occurrence order, each updating its own control entry. -/
def processDia (dataDia : Nat) (opsDia : List Op) (controle : String → Pos) :
    (String → Pos) × List Venda :=
  (uniqueFirst (opsDia.map (·.ticket))).foldl
    (fun st tkt =>
      let r := processTicketDia dataDia opsDia tkt (st.1 tkt)
      ((fun s => if s = tkt then r.1 else st.1 s), st.2 ++ r.2))
    (controle, [])

instance decHoraLe : DecidableRel (fun a b : Op => a.hora ≤ b.hora) :=
  fun a b => Nat.decLe a.hora b.hora

/-- Model of `calcular_tudo` from `app.py`: process the distinct dates in
ascending order, each date's rows sorted by time of day; returns the final
control dictionary and the realized-sale log. -/
def calcular_tudo (df : List Op) : (String → Pos) × List Venda :=
  let datas := List.insertionSort (· ≤ ·) (df.map (·.data)).dedup
  datas.foldl
    (fun st dataDia =>
      let df_dia := List.insertionSort (fun a b => a.hora ≤ b.hora)
        (df.filter (fun o => o.data = dataDia))
      let r := processDia dataDia df_dia st.1
      (r.1, st.2 ++ r.2))
    ((fun _ => { qtd := 0, pm := 0 }), [])

end App

namespace App2

/-- Model of `validar_operacao` from `app_2.py`: the returned list of
human-readable rejection reasons.  The ticker test is only nonemptiness and
a minimum length of four characters.  The clock comparison
`data > datetime.now().date()` is modelled by passing the current date
`hoje` explicitly. -/
def validar_operacao (ticket tipo : String) (quantidade : Int) (valor : Rat)
    (data hoje : Nat) : List String :=
  (if ticket = ("") ∨ ticket.data.length < 4 then ["Ticket invalido (minimo 4 caracteres)"] else [])
    ++ (if ¬(tipo = ("Compra") ∨ tipo = ("Venda")) then ["Tipo deve ser Compra ou Venda"] else [])
    ++ (if quantidade ≤ 0 then ["Quantidade deve ser positiva"] else [])
    ++ (if valor ≤ 0 then ["Preco deve ser positivo"] else [])
    ++ (if hoje < data then ["Data nao pode ser futura"] else [])

/-- Result of the pre-save short-sale check of `app_2.py`. -/
inductive CheckVenda
  | descoberto (qtd_disponivel qtd_faltante : Int)
  | ok
deriving DecidableEq

/-- Model of `verificar_venda_descoberto` from `app_2.py`: compares the
requested sell quantity against total bought minus total sold so far. -/
def verificar_venda_descoberto (ticket : String) (quantidade : Int) (df_ops : List Op) :
    CheckVenda :=
  if df_ops = [] then CheckVenda.descoberto 0 quantidade
  else
    let ops_ticket := df_ops.filter (fun o => o.ticket = ticket)
    let compras := ((ops_ticket.filter (fun o => o.tipo = Tipo.compra)).map (·.quantidade)).sum
    let vendas := ((ops_ticket.filter (fun o => o.tipo = Tipo.venda)).map (·.quantidade)).sum
    let qtd_disponivel := compras - vendas
    if qtd_disponivel < quantidade then
      CheckVenda.descoberto qtd_disponivel (quantidade - qtd_disponivel)
    else CheckVenda.ok

/-- Rows of the day belonging to one ticker (`ops_dia` in `app_2.py`). -/
def ops_dia (opsDia : List Op) (tkt : String) : List Op :=
  opsDia.filter (fun o => o.ticket = tkt)

/-- The day's buy rows for the ticker (`compras_dia`). -/
def compras_dia (opsDia : List Op) (tkt : String) : List Op :=
  (ops_dia opsDia tkt).filter (fun o => o.tipo = Tipo.compra)

/-- The day's sell rows for the ticker (`vendas_dia`). -/
def vendas_dia (opsDia : List Op) (tkt : String) : List Op :=
  (ops_dia opsDia tkt).filter (fun o => o.tipo = Tipo.venda)

/-- Total bought quantity of the ticker on the day (`q_c`). -/
def q_c (opsDia : List Op) (tkt : String) : Int :=
  ((compras_dia opsDia tkt).map (·.quantidade)).sum

/-- Total sold quantity of the ticker on the day (`q_v`). -/
def q_v (opsDia : List Op) (tkt : String) : Int :=
  ((vendas_dia opsDia tkt).map (·.quantidade)).sum

/-- Summed brokerage and exchange fees over the day's buy rows
(`custo_compra`). -/
def custo_compra (opsDia : List Op) (tkt : String) : Rat :=
  ((compras_dia opsDia tkt).map (fun o => o.taxa_corretagem + o.taxa_emolumentos)).sum

/-- Summed brokerage and exchange fees over the day's sell rows
(`custo_venda`). -/
def custo_venda (opsDia : List Op) (tkt : String) : Rat :=
  ((vendas_dia opsDia tkt).map (fun o => o.taxa_corretagem + o.taxa_emolumentos)).sum

/-- Mean buy price over the day's buy rows (`v_compra_m`), unweighted. -/
def v_compra_m (opsDia : List Op) (tkt : String) : Rat :=
  media ((compras_dia opsDia tkt).map (·.valor))

/-- Mean sell price over the day's sell rows (`v_venda_m`), unweighted. -/
def v_venda_m (opsDia : List Op) (tkt : String) : Rat :=
  media ((vendas_dia opsDia tkt).map (·.valor))

/-- Time stamp of the first sell row of the day (`hora_venda`), defaulting
to midnight when the day has no sell. -/
def hora_venda (opsDia : List Op) (tkt : String) : Nat :=
  match vendas_dia opsDia tkt with
  | [] => 0
  | o :: _ => o.hora

/-- One realized-sale record appended to `vendas_realizadas` in
`app_2.py`. -/
structure Venda where
  data : Nat
  hora : Nat
  ticket : String
  tipo : TipoOp
  tipoAtivo : TipoAtivo
  resultado : Rat
  volumeVenda : Rat
  mes : Nat
deriving DecidableEq

/-- Body of the inner ticker loop of `calcular_tudo` in `app_2.py`:
day-trade matching with fee netting, residual-buy absorption with per-unit
fee add-on, residual-sell realization with per-unit fee deduction. -/
def processTicketDia (dataDia : Nat) (opsDia : List Op) (tkt : String) (pos : Pos) :
    Pos × List Venda :=
  let qtd_dt := min (q_c opsDia tkt) (q_v opsDia tkt)
  let vendasDT : List Venda :=
    if 0 < qtd_dt then
      let resultado_bruto := (v_venda_m opsDia tkt - v_compra_m opsDia tkt) * (qtd_dt : Rat)
      let resultado_liquido :=
        if qtd_dt = q_c opsDia tkt then
          resultado_bruto - (custo_compra opsDia tkt + custo_venda opsDia tkt)
        else resultado_bruto - custo_venda opsDia tkt
      [{ data := dataDia, hora := hora_venda opsDia tkt, ticket := tkt,
         tipo := TipoOp.dayTrade, tipoAtivo := identificar_tipo_ativo tkt,
         resultado := resultado_liquido,
         volumeVenda := (qtd_dt : Rat) * v_venda_m opsDia tkt,
         mes := mesOf dataDia }]
    else []
  let sobra_c := q_c opsDia tkt - qtd_dt
  let pos1 : Pos :=
    if 0 < sobra_c then
      let custo_medio_unitario := custo_compra opsDia tkt / (sobra_c : Rat)
      let novo_total := (pos.qtd : Rat) * pos.pm
        + (sobra_c : Rat) * (v_compra_m opsDia tkt + custo_medio_unitario)
      let qtdNova := pos.qtd + sobra_c
      { qtd := qtdNova, pm := if 0 < qtdNova then novo_total / (qtdNova : Rat) else 0 }
    else pos
  let sobra_v := q_v opsDia tkt - qtd_dt
  if 0 < sobra_v then
    let custo_medio_unitario := custo_venda opsDia tkt / (sobra_v : Rat)
    let resultado_liquido :=
      (v_venda_m opsDia tkt - custo_medio_unitario - pos1.pm) * (sobra_v : Rat)
    ({ pos1 with qtd := pos1.qtd - sobra_v },
      vendasDT ++
        [{ data := dataDia, hora := hora_venda opsDia tkt, ticket := tkt,
           tipo := TipoOp.swingTrade, tipoAtivo := identificar_tipo_ativo tkt,
           resultado := resultado_liquido,
           volumeVenda := (sobra_v : Rat) * v_venda_m opsDia tkt,
           mes := mesOf dataDia }])
  else (pos1, vendasDT)

/-- One day of `calcular_tudo` in `app_2.py`: iterate the day's tickers in
first-occurrence order, each updating its own control entry. -/
def processDia (dataDia : Nat) (opsDia : List Op) (controle : String → Pos) :
    (String → Pos) × List Venda :=
  (uniqueFirst (opsDia.map (·.ticket))).foldl
    (fun st tkt =>
      let r := processTicketDia dataDia opsDia tkt (st.1 tkt)
      ((fun s => if s = tkt then r.1 else st.1 s), st.2 ++ r.2))
    (controle, [])

/-- Accumulated losses carried forward between months, one balance per
bucket of the `prejuizos` dictionary in `calcular_ir_completo`. -/
structure Prejuizos where
  dt : Rat
  st_acao : Rat
  st_fii : Rat
deriving DecidableEq

/-- One row of the monthly income-tax summary produced by
`calcular_ir_completo`. -/
structure LinhaIR where
  mes : Nat
  lucro_dt : Rat
  prej_dt_acum : Rat
  imposto_dt : Rat
  lucro_st_acao : Rat
  volume_st_acao : Rat
  isento : Bool
  prej_st_acao : Rat
  imposto_st_acao : Rat
  lucro_st_bdr : Rat
  volume_st_bdr : Rat
  imposto_st_bdr : Rat
  lucro_st_fii : Rat
  volume_st_fii : Rat
  prej_st_fii : Rat
  imposto_st_fii : Rat
  total_ir : Rat
deriving DecidableEq

/-- Body of the month loop of `calcular_ir_completo` in `app_2.py`: given
the carried losses entering the month, the full realization log and the
month key, produce the summary row and the carried losses leaving the
month. -/
def linhaMes (prej : Prejuizos) (df_res : List Venda) (mes : Nat) : LinhaIR × Prejuizos :=
  let df_m := df_res.filter (fun v => v.mes = mes)
  let dt_lucro := ((df_m.filter (fun v => v.tipo = TipoOp.dayTrade)).map (·.resultado)).sum
  let dt_lucro_tributavel := dt_lucro + prej.dt
  let dt_imposto := if 0 < dt_lucro_tributavel then dt_lucro_tributavel * 0.20 else 0
  let prej_dt := if 0 < dt_lucro_tributavel then 0 else dt_lucro_tributavel
  let st_acao := df_m.filter
    (fun v => v.tipo = TipoOp.swingTrade ∧ v.tipoAtivo = TipoAtivo.acao)
  let st_acao_lucro := (st_acao.map (·.resultado)).sum
  let st_acao_volume := (st_acao.map (·.volumeVenda)).sum
  let st_acao_lucro_tributavel := st_acao_lucro + prej.st_acao
  let st_acao_imposto :=
    if st_acao_volume ≤ 20000 then 0
    else if 0 < st_acao_lucro_tributavel then st_acao_lucro_tributavel * 0.15 else 0
  let prej_acao :=
    if st_acao_volume ≤ 20000 then prej.st_acao
    else if 0 < st_acao_lucro_tributavel then 0 else st_acao_lucro_tributavel
  let st_bdr := df_m.filter
    (fun v => v.tipo = TipoOp.swingTrade ∧ v.tipoAtivo = TipoAtivo.bdr)
  let st_bdr_lucro := (st_bdr.map (·.resultado)).sum
  let st_bdr_volume := (st_bdr.map (·.volumeVenda)).sum
  let st_bdr_lucro_tributavel := st_bdr_lucro
  let st_bdr_imposto := if 0 < st_bdr_lucro_tributavel then st_bdr_lucro_tributavel * 0.15 else 0
  let st_fii := df_m.filter
    (fun v => v.tipo = TipoOp.swingTrade ∧ v.tipoAtivo = TipoAtivo.fii)
  let st_fii_lucro := (st_fii.map (·.resultado)).sum
  let st_fii_volume := (st_fii.map (·.volumeVenda)).sum
  let st_fii_lucro_tributavel := st_fii_lucro + prej.st_fii
  let st_fii_imposto := if 0 < st_fii_lucro_tributavel then st_fii_lucro_tributavel * 0.20 else 0
  let prej_fii := if 0 < st_fii_lucro_tributavel then 0 else st_fii_lucro_tributavel
  ({ mes := mes, lucro_dt := dt_lucro, prej_dt_acum := prej_dt, imposto_dt := dt_imposto,
     lucro_st_acao := st_acao_lucro, volume_st_acao := st_acao_volume,
     isento := decide (st_acao_volume ≤ 20000),
     prej_st_acao := prej_acao, imposto_st_acao := st_acao_imposto,
     lucro_st_bdr := st_bdr_lucro, volume_st_bdr := st_bdr_volume,
     imposto_st_bdr := st_bdr_imposto,
     lucro_st_fii := st_fii_lucro, volume_st_fii := st_fii_volume,
     prej_st_fii := prej_fii, imposto_st_fii := st_fii_imposto,
     total_ir := dt_imposto + st_acao_imposto + st_bdr_imposto + st_fii_imposto },
   { dt := prej_dt, st_acao := prej_acao, st_fii := prej_fii })

/-- Model of `calcular_ir_completo` from `app_2.py`: fold `linhaMes` over
the distinct month keys in ascending order, threading the carried losses. -/
def calcular_ir_completo (df_res : List Venda) : List LinhaIR :=
  let meses := List.insertionSort (· ≤ ·) (df_res.map (·.mes)).dedup
  (meses.foldl
    (fun (st : List LinhaIR × Prejuizos) mes =>
      let r := linhaMes st.2 df_res mes
      (st.1 ++ [r.1], r.2))
    ([], { dt := 0, st_acao := 0, st_fii := 0 })).1

/-- Model of `calcular_tudo` from `app_2.py`: the day loop over distinct
dates in ascending order (each date's rows sorted by time of day) followed
by the income-tax aggregation of the realization log. -/
def calcular_tudo (df_ops : List Op) : ((String → Pos) × List Venda) × List LinhaIR :=
  let datas := List.insertionSort (· ≤ ·) (df_ops.map (·.data)).dedup
  let r := datas.foldl
    (fun st dataDia =>
      let df_dia := List.insertionSort (fun a b => a.hora ≤ b.hora)
        (df_ops.filter (fun o => o.data = dataDia))
      let rd := processDia dataDia df_dia st.1
      (rd.1, st.2 ++ rd.2))
    ((fun _ => { qtd := 0, pm := 0 }), ([] : List Venda))
  (r, calcular_ir_completo r.2)

end App2

/-! Concrete data used to instantiate the claims. -/

/-- Claim C1 data: a day with two buys of unequal quantities at different
prices and a fully matching sell. -/
def exC1_ops : List Op :=
  [⟨20240110, 900, "VALE3", Tipo.compra, 1, 10, 0, 0⟩,
   ⟨20240110, 901, "VALE3", Tipo.compra, 3, 20, 0, 0⟩,
   ⟨20240110, 902, "VALE3", Tipo.venda, 4, 20, 0, 0⟩]

/-- Claim C2 data: one equity swing-trade realization per month with gross
results -100, 50, 80 and sell volume above the exemption threshold. -/
def exC2_res : List App2.Venda :=
  [⟨20240110, 900, "VALE3", TipoOp.swingTrade, TipoAtivo.acao, -100, 30000, 202401⟩,
   ⟨20240210, 900, "VALE3", TipoOp.swingTrade, TipoAtivo.acao, 50, 30000, 202402⟩,
   ⟨20240310, 900, "VALE3", TipoOp.swingTrade, TipoAtivo.acao, 80, 30000, 202403⟩]

/-- Claim C3 data: two buys of unequal quantities at different prices on
the same day. -/
def exC3_umDia : List Op :=
  [⟨20240110, 900, "VALE3", Tipo.compra, 1, 10, 0, 0⟩,
   ⟨20240110, 901, "VALE3", Tipo.compra, 3, 20, 0, 0⟩]

/-- Claim C3 data: the same two buys split across two days. -/
def exC3_doisDias : List Op :=
  [⟨20240110, 900, "VALE3", Tipo.compra, 1, 10, 0, 0⟩,
   ⟨20240111, 901, "VALE3", Tipo.compra, 3, 20, 0, 0⟩]

/-- Claim C3 witness data: one buy per day, with fees. -/
def exC3_dias : List (Nat × Op) :=
  [(20240110, ⟨20240110, 900, "VALE3", Tipo.compra, 1, 10, 1, 0⟩),
   (20240111, ⟨20240111, 901, "VALE3", Tipo.compra, 3, 20, 0, 2⟩)]

/-- Claim C4 witness data: an equity swing month with sell volume exactly at
the exemption threshold. -/
def exC4_naBorda : List App2.Venda :=
  [⟨20240110, 900, "PETR4", TipoOp.swingTrade, TipoAtivo.acao, 100, 20000, 202401⟩]

/-- Claim C4 witness data: an equity swing month with sell volume one cent
above the exemption threshold and a positive result. -/
def exC4_acima : List App2.Venda :=
  [⟨20240110, 900, "PETR4", TipoOp.swingTrade, TipoAtivo.acao, 100, 20000.01, 202401⟩]

/-- Claim C5 witness data: a sell-only day. -/
def exC5_ops : List Op :=
  [⟨20240105, 1000, "PETR4", Tipo.venda, 60, 12, 0, 0⟩]

/-- Claim C7 data: a single sell with nothing held. -/
def exC7_ops : List Op :=
  [⟨20240105, 1000, "PETR4", Tipo.venda, 100, 10, 0, 0⟩]

/-- Claim C8 witness data: an exempt equity swing month with a negative
result. -/
def exC8_res : List App2.Venda :=
  [⟨20240110, 900, "PETR4", TipoOp.swingTrade, TipoAtivo.acao, -500, 10000, 202401⟩]

/-- Claim C9 witness data: one BDR swing-trade realization. -/
def exC9_res : List App2.Venda :=
  [⟨20240110, 900, "AAPL34", TipoOp.swingTrade, TipoAtivo.bdr, 100, 5000, 202401⟩]

/-- Claim C9 witness data: the summary row produced for that month. -/
def exC9_linha : App2.LinhaIR :=
  (App2.linhaMes { dt := 0, st_acao := 0, st_fii := 0 } exC9_res 202401).1

/-- Claim C10 witness data: a sell-only day for one ticker, plus an
unrelated row of another ticker elsewhere. -/
def exC10_ops : List Op :=
  [⟨20240105, 1000, "PETR4", Tipo.venda, 40, 25, 2, 1⟩]

/-! Auxiliary lemmas about the monthly income-tax fold. -/

/-- The month key recorded in a summary row is the month the row was built
for. -/
theorem linhaMes_mes (prej : App2.Prejuizos) (df : List App2.Venda) (m : Nat) :
    (App2.linhaMes prej df m).1.mes = m := rfl

/-- The rows coming out of the month fold carry exactly the month keys fed
into it, in order. -/
theorem ir_fold_map_mes (df : List App2.Venda) :
    ∀ (meses : List Nat) (acc : List App2.LinhaIR) (prej : App2.Prejuizos),
      ((meses.foldl
          (fun (st : List App2.LinhaIR × App2.Prejuizos) mes =>
            (st.1 ++ [(App2.linhaMes st.2 df mes).1], (App2.linhaMes st.2 df mes).2))
          (acc, prej)).1).map (·.mes) = acc.map (·.mes) ++ meses := by
  intro meses
  induction meses with
  | nil => intro acc prej; simp
  | cons m ms ih =>
      intro acc prej
      rw [List.foldl_cons, ih]
      simp [linhaMes_mes]

/-- Every row of the month fold is either an accumulator row or the output
of `linhaMes` at some carried-loss state and month. -/
theorem ir_fold_mem (df : List App2.Venda) :
    ∀ (meses : List Nat) (acc : List App2.LinhaIR) (prej : App2.Prejuizos)
      (linha : App2.LinhaIR),
      linha ∈ (meses.foldl
          (fun (st : List App2.LinhaIR × App2.Prejuizos) mes =>
            (st.1 ++ [(App2.linhaMes st.2 df mes).1], (App2.linhaMes st.2 df mes).2))
          (acc, prej)).1 →
      linha ∈ acc ∨ ∃ p m, linha = (App2.linhaMes p df m).1 := by
  intro meses
  induction meses with
  | nil => intro acc prej linha h; exact Or.inl h
  | cons m ms ih =>
      intro acc prej linha h
      rw [List.foldl_cons] at h
      rcases ih _ _ _ h with hacc | hrest
      · rcases List.mem_append.mp hacc with h1 | h2
        · exact Or.inl h1
        · exact Or.inr ⟨prej, m, List.mem_singleton.mp h2⟩
      · exact Or.inr hrest

/-- Claim C2: the tax aggregator processes months in strictly ascending
order; per carrying bucket, taxable is the month gross plus the loss
carried in, a positive taxable is taxed at the bucket rate and clears the
carried loss, otherwise the tax is zero and the taxable becomes the new
carried loss; on monthly equity swing gross results -100, 50, 80 above the
volume threshold (rate 0.15) the taxes are 0, 0, 4.5 and the carried
losses -100, -50, 0. -/
theorem c2_carry_forward :
    (∀ df : List App2.Venda,
      List.Pairwise (· < ·) ((App2.calcular_ir_completo df).map (·.mes)))
  ∧ (∀ (prej : App2.Prejuizos) (df : List App2.Venda) (mes : Nat),
      (App2.linhaMes prej df mes).1.imposto_dt
        = (if 0 < (App2.linhaMes prej df mes).1.lucro_dt + prej.dt
            then ((App2.linhaMes prej df mes).1.lucro_dt + prej.dt) * 0.20 else 0)
      ∧ (App2.linhaMes prej df mes).2.dt
        = (if 0 < (App2.linhaMes prej df mes).1.lucro_dt + prej.dt
            then 0 else (App2.linhaMes prej df mes).1.lucro_dt + prej.dt)
      ∧ (App2.linhaMes prej df mes).1.imposto_st_acao
        = (if (App2.linhaMes prej df mes).1.volume_st_acao ≤ 20000 then 0
           else if 0 < (App2.linhaMes prej df mes).1.lucro_st_acao + prej.st_acao
            then ((App2.linhaMes prej df mes).1.lucro_st_acao + prej.st_acao) * 0.15 else 0)
      ∧ (App2.linhaMes prej df mes).2.st_acao
        = (if (App2.linhaMes prej df mes).1.volume_st_acao ≤ 20000 then prej.st_acao
           else if 0 < (App2.linhaMes prej df mes).1.lucro_st_acao + prej.st_acao
            then 0 else (App2.linhaMes prej df mes).1.lucro_st_acao + prej.st_acao))
  ∧ ((App2.calcular_ir_completo exC2_res).map (·.imposto_st_acao) = [0, 0, 4.5]
      ∧ (App2.calcular_ir_completo exC2_res).map (·.prej_st_acao) = [-100, -50, 0]) := by
  refine ⟨?_, ?_, ?_⟩
  · intro df
    have hmap : (App2.calcular_ir_completo df).map (·.mes)
        = List.insertionSort (· ≤ ·) (df.map (·.mes)).dedup := by
      simp only [App2.calcular_ir_completo]
      rw [ir_fold_map_mes]
      simp
    rw [hmap]
    have hs := List.sorted_insertionSort (· ≤ ·) (df.map (·.mes)).dedup
    have hn : (List.insertionSort (· ≤ ·) (df.map (·.mes)).dedup).Nodup :=
      (List.perm_insertionSort (· ≤ ·) (df.map (·.mes)).dedup).nodup_iff.mpr
        (List.nodup_dedup _)
    exact hs.lt_of_le hn
  · intro prej df mes
    refine ⟨?_, ?_, ?_, ?_⟩ <;> simp only [App2.linhaMes]
  · constructor <;> norm_num [App2.calcular_ir_completo, App2.linhaMes, exC2_res,
      List.insertionSort, List.orderedInsert, List.dedup, List.pwFilter]

/-- Claim C4: a month whose equity swing-trade sell volume is at or below
20000 pays no equity swing-trade tax (the exemption holds at exactly the
threshold); above the threshold, a positive taxable result (month gross
net of carried equity-swing losses) is taxed in full at the 15 percent
equity rate. -/
theorem c4_isencao (prej : App2.Prejuizos) (df : List App2.Venda) (mes : Nat) :
    ((App2.linhaMes prej df mes).1.volume_st_acao ≤ 20000 →
      (App2.linhaMes prej df mes).1.imposto_st_acao = 0)
  ∧ (20000 < (App2.linhaMes prej df mes).1.volume_st_acao →
      0 < (App2.linhaMes prej df mes).1.lucro_st_acao + prej.st_acao →
      (App2.linhaMes prej df mes).1.imposto_st_acao
        = ((App2.linhaMes prej df mes).1.lucro_st_acao + prej.st_acao) * 0.15) := by
  constructor
  · intro h
    simp only [App2.linhaMes] at h ⊢
    rw [if_pos h]
  · intro h1 h2
    simp only [App2.linhaMes] at h1 h2 ⊢
    rw [if_neg (not_le.mpr h1), if_pos h2]

/-- Claim C4 witness: volume exactly 20000 is exempt; volume 20000.01 with
a positive result is taxed at 15 percent. -/
theorem c4_isencao_witness :
    (App2.linhaMes { dt := 0, st_acao := 0, st_fii := 0 } exC4_naBorda 202401).1.imposto_st_acao = 0
  ∧ (App2.linhaMes { dt := 0, st_acao := 0, st_fii := 0 } exC4_acima 202401).1.imposto_st_acao
      = ((App2.linhaMes { dt := 0, st_acao := 0, st_fii := 0 } exC4_acima 202401).1.lucro_st_acao
          + ({ dt := 0, st_acao := 0, st_fii := 0 } : App2.Prejuizos).st_acao) * 0.15 :=
  ⟨(c4_isencao _ _ _).1 (by norm_num [App2.linhaMes, exC4_naBorda]),
   (c4_isencao _ _ _).2 (by norm_num [App2.linhaMes, exC4_acima])
     (by norm_num [App2.linhaMes, exC4_acima])⟩

/-- Claim C8: an exempt equity swing-trade month (volume at or below the
threshold) pays no equity swing tax and leaves the carried equity-swing
loss balance exactly as it entered, even when the month's result is a
loss. -/
theorem c8_isencao_preserva_prejuizo (prej : App2.Prejuizos) (df : List App2.Venda) (mes : Nat)
    (h : (App2.linhaMes prej df mes).1.volume_st_acao ≤ 20000) :
    (App2.linhaMes prej df mes).1.imposto_st_acao = 0
  ∧ (App2.linhaMes prej df mes).2.st_acao = prej.st_acao := by
  simp only [App2.linhaMes] at h ⊢
  rw [if_pos h, if_pos h]
  exact ⟨rfl, rfl⟩

/-- Claim C8 witness: a 500 loss realized in an exempt month neither is
taxed nor changes the carried loss balance of -200. -/
theorem c8_isencao_preserva_prejuizo_witness :
    (App2.linhaMes { dt := 0, st_acao := -200, st_fii := 0 } exC8_res 202401).1.imposto_st_acao = 0
  ∧ (App2.linhaMes { dt := 0, st_acao := -200, st_fii := 0 } exC8_res 202401).2.st_acao
      = ({ dt := 0, st_acao := -200, st_fii := 0 } : App2.Prejuizos).st_acao :=
  c8_isencao_preserva_prejuizo _ _ _ (by norm_num [App2.linhaMes, exC8_res])

/-- Claim C9: in every monthly summary row, the BDR swing-trade tax is 15
percent of that month's gross BDR swing result when positive and zero
otherwise, and that gross is computed from the month's own realizations
only -- the bucket reads no carried-loss balance, so it is independent of
every other month. -/
theorem c9_bdr_sem_prejuizo (df : List App2.Venda) (linha : App2.LinhaIR)
    (h : linha ∈ App2.calcular_ir_completo df) :
    linha.imposto_st_bdr
      = (if 0 < linha.lucro_st_bdr then linha.lucro_st_bdr * 0.15 else 0)
  ∧ linha.lucro_st_bdr
      = (((df.filter (fun v => v.mes = linha.mes)).filter
          (fun v => v.tipo = TipoOp.swingTrade ∧ v.tipoAtivo = TipoAtivo.bdr)).map
            (·.resultado)).sum := by
  have h2 : linha ∈ ([] : List App2.LinhaIR)
      ∨ ∃ p m, linha = (App2.linhaMes p df m).1 := by
    apply ir_fold_mem df _ [] _ linha
    simpa [App2.calcular_ir_completo] using h
  rcases h2 with h3 | ⟨p, m, rfl⟩
  · cases h3
  · constructor
    · simp only [App2.linhaMes]
    · simp only [linhaMes_mes]
      simp only [App2.linhaMes]

/-- Claim C9 witness: the single-month BDR example row. -/
theorem c9_bdr_sem_prejuizo_witness :
    exC9_linha.imposto_st_bdr
      = (if 0 < exC9_linha.lucro_st_bdr then exC9_linha.lucro_st_bdr * 0.15 else 0)
  ∧ exC9_linha.lucro_st_bdr
      = (((exC9_res.filter (fun v => v.mes = exC9_linha.mes)).filter
          (fun v => v.tipo = TipoOp.swingTrade ∧ v.tipoAtivo = TipoAtivo.bdr)).map
            (·.resultado)).sum :=
  c9_bdr_sem_prejuizo exC9_res exC9_linha
    (by simp [App2.calcular_ir_completo, exC9_res, exC9_linha,
          List.insertionSort, List.orderedInsert, List.dedup, List.pwFilter])

/-- Claim C7: on a stream whose residual sell exceeds the held quantity the
accounting core completes and drives the ledger quantity negative (here to
-100), while the short-sale check of the surrounding application flags the
same sell as uncovered before saving. -/
theorem c7_venda_descoberto :
    ((App2.calcular_tudo exC7_ops).1.1 ("PETR4")) = { qtd := -100, pm := 0 }
  ∧ ((App2.calcular_tudo exC7_ops).1.1 ("PETR4")).qtd < 0
  ∧ App2.verificar_venda_descoberto ("PETR4") 100 [] = App2.CheckVenda.descoberto 0 100 := by
  set_option maxHeartbeats 2000000 in
  exact ⟨by decide, by decide, by decide⟩

/-- Claim C5: on a day whose residual sell quantity is positive, the
swing-trade realization appended last for that ticker has result
(day mean sell price minus the ledger average cost as it stood at the
start of the day, before any absorption of the day's buys) times the
residual sell quantity -- possible because a day never has both a residual
buy and a residual sell, so the absorption step cannot move the average
cost first.  The first part is `app.py`; in `app_2.py` the day's sell fees
are additionally deducted per unit from the mean sell price. -/
theorem c5_swing_usa_pm_do_dia :
    (∀ (dataDia : Nat) (opsDia : List Op) (tkt : String) (pos : Pos),
      App.q_compra_dia opsDia tkt < App.q_venda_dia opsDia tkt →
      ((App.processTicketDia dataDia opsDia tkt pos).2).getLast?
        = some { data := dataDia, ticket := tkt, tipo := TipoOp.swingTrade,
                 qtd := App.q_venda_dia opsDia tkt - App.q_compra_dia opsDia tkt,
                 resultado := (App.v_venda_medio opsDia tkt - pos.pm)
                   * ((App.q_venda_dia opsDia tkt - App.q_compra_dia opsDia tkt : Int) : Rat),
                 volumeVenda := ((App.q_venda_dia opsDia tkt - App.q_compra_dia opsDia tkt : Int) : Rat)
                   * App.v_venda_medio opsDia tkt,
                 mes := mesOf dataDia })
  ∧ (∀ (dataDia : Nat) (opsDia : List Op) (tkt : String) (pos : Pos),
      App2.q_c opsDia tkt < App2.q_v opsDia tkt →
      ((App2.processTicketDia dataDia opsDia tkt pos).2).getLast?
        = some { data := dataDia, hora := App2.hora_venda opsDia tkt, ticket := tkt,
                 tipo := TipoOp.swingTrade, tipoAtivo := identificar_tipo_ativo tkt,
                 resultado := (App2.v_venda_m opsDia tkt
                     - App2.custo_venda opsDia tkt
                         / ((App2.q_v opsDia tkt - App2.q_c opsDia tkt : Int) : Rat)
                     - pos.pm)
                   * ((App2.q_v opsDia tkt - App2.q_c opsDia tkt : Int) : Rat),
                 volumeVenda := ((App2.q_v opsDia tkt - App2.q_c opsDia tkt : Int) : Rat)
                   * App2.v_venda_m opsDia tkt,
                 mes := mesOf dataDia }) := by
  constructor
  · intro dataDia opsDia tkt pos h
    have hmin : min (App.q_compra_dia opsDia tkt) (App.q_venda_dia opsDia tkt)
        = App.q_compra_dia opsDia tkt := min_eq_left (le_of_lt h)
    have hpos : (0:Int) < App.q_venda_dia opsDia tkt - App.q_compra_dia opsDia tkt :=
      sub_pos.mpr h
    simp only [App.processTicketDia, hmin, sub_self, lt_self_iff_false, if_false, if_pos hpos]
    rw [List.getLast?_concat]
  · intro dataDia opsDia tkt pos h
    have hmin : min (App2.q_c opsDia tkt) (App2.q_v opsDia tkt) = App2.q_c opsDia tkt :=
      min_eq_left (le_of_lt h)
    have hpos : (0:Int) < App2.q_v opsDia tkt - App2.q_c opsDia tkt := sub_pos.mpr h
    simp only [App2.processTicketDia, hmin, sub_self, lt_self_iff_false, if_false, if_pos hpos]
    rw [List.getLast?_concat]

/-- Claim C5 witness: a sell-only day realizes a swing trade against the
incoming average cost, in both revisions. -/
theorem c5_swing_usa_pm_do_dia_witness :
    ((App.processTicketDia 20240105 exC5_ops ("PETR4") { qtd := 100, pm := 7 }).2).getLast?
      = some { data := 20240105, ticket := "PETR4", tipo := TipoOp.swingTrade,
               qtd := App.q_venda_dia exC5_ops ("PETR4") - App.q_compra_dia exC5_ops ("PETR4"),
               resultado := (App.v_venda_medio exC5_ops ("PETR4") - (7:Rat))
                 * ((App.q_venda_dia exC5_ops ("PETR4") - App.q_compra_dia exC5_ops ("PETR4") : Int) : Rat),
               volumeVenda := ((App.q_venda_dia exC5_ops ("PETR4") - App.q_compra_dia exC5_ops ("PETR4") : Int) : Rat)
                 * App.v_venda_medio exC5_ops ("PETR4"),
               mes := mesOf 20240105 }
  ∧ ((App2.processTicketDia 20240105 exC5_ops ("PETR4") { qtd := 100, pm := 7 }).2).getLast?
      = some { data := 20240105, hora := App2.hora_venda exC5_ops ("PETR4"), ticket := "PETR4",
               tipo := TipoOp.swingTrade, tipoAtivo := identificar_tipo_ativo ("PETR4"),
               resultado := (App2.v_venda_m exC5_ops ("PETR4")
                   - App2.custo_venda exC5_ops ("PETR4")
                       / ((App2.q_v exC5_ops ("PETR4") - App2.q_c exC5_ops ("PETR4") : Int) : Rat)
                   - (7:Rat))
                 * ((App2.q_v exC5_ops ("PETR4") - App2.q_c exC5_ops ("PETR4") : Int) : Rat),
               volumeVenda := ((App2.q_v exC5_ops ("PETR4") - App2.q_c exC5_ops ("PETR4") : Int) : Rat)
                 * App2.v_venda_m exC5_ops ("PETR4"),
               mes := mesOf 20240105 } :=
  ⟨c5_swing_usa_pm_do_dia.1 20240105 exC5_ops ("PETR4") { qtd := 100, pm := 7 } (by decide),
   c5_swing_usa_pm_do_dia.2 20240105 exC5_ops ("PETR4") { qtd := 100, pm := 7 } (by decide)⟩

/-- Membership in the first-occurrence deduplication comes from membership
in the original list or in the accumulator. -/
theorem mem_uniqueFirst_fold :
    ∀ (l acc : List String) (x : String),
      x ∈ l.foldl (fun acc y => if y ∈ acc then acc else acc ++ [y]) acc →
      x ∈ acc ∨ x ∈ l := by
  intro l
  induction l with
  | nil => intro acc x h; exact Or.inl h
  | cons y l ih =>
      intro acc x h
      rw [List.foldl_cons] at h
      rcases ih _ x h with h1 | h2
      · by_cases hy : y ∈ acc
        · rw [if_pos hy] at h1; exact Or.inl h1
        · rw [if_neg hy] at h1
          rcases List.mem_append.mp h1 with h3 | h4
          · exact Or.inl h3
          · exact Or.inr ((List.mem_singleton.mp h4) ▸ List.mem_cons_self _ _)
      · exact Or.inr (List.mem_cons_of_mem _ h2)

/-- A ticker absent from a day leaves its control entry untouched by the
day fold. -/
theorem processDia_frame_fold (dataDia : Nat) (opsDia : List Op) :
    ∀ (L : List String) (controle : String → Pos) (acc : List App2.Venda) (t : String),
      t ∉ L →
      ((L.foldl
          (fun (st : (String → Pos) × List App2.Venda) tkt =>
            ((fun s => if s = tkt then (App2.processTicketDia dataDia opsDia tkt (st.1 tkt)).1
               else st.1 s),
             st.2 ++ (App2.processTicketDia dataDia opsDia tkt (st.1 tkt)).2))
          (controle, acc)).1) t = controle t := by
  intro L
  induction L with
  | nil => intro controle acc t _; rfl
  | cons tkt L ih =>
      intro controle acc t ht
      rw [List.foldl_cons]
      have ht1 : t ≠ tkt := fun hc => ht (hc ▸ List.mem_cons_self _ _)
      have ht2 : t ∉ L := fun hc => ht (List.mem_cons_of_mem _ hc)
      rw [ih _ _ t ht2]
      simp [ht1]

/-- Claim C10: a residual sell decrements the ledger quantity by exactly
the residual amount and leaves the average cost unchanged, and a day's
processing never touches the control entry of a ticker that does not trade
that day. -/
theorem c10_venda_preserva_pm :
    (∀ (dataDia : Nat) (opsDia : List Op) (tkt : String) (pos : Pos),
      App2.q_c opsDia tkt < App2.q_v opsDia tkt →
      (App2.processTicketDia dataDia opsDia tkt pos).1
        = { qtd := pos.qtd - (App2.q_v opsDia tkt - App2.q_c opsDia tkt), pm := pos.pm })
  ∧ (∀ (dataDia : Nat) (opsDia : List Op) (controle : String → Pos) (t : String),
      (∀ o ∈ opsDia, o.ticket ≠ t) →
      (App2.processDia dataDia opsDia controle).1 t = controle t) := by
  constructor
  · intro dataDia opsDia tkt pos h
    have hmin : min (App2.q_c opsDia tkt) (App2.q_v opsDia tkt) = App2.q_c opsDia tkt :=
      min_eq_left (le_of_lt h)
    have hpos : (0:Int) < App2.q_v opsDia tkt - App2.q_c opsDia tkt := sub_pos.mpr h
    simp only [App2.processTicketDia, hmin, sub_self, lt_self_iff_false, if_false,
      if_pos hpos]
  · intro dataDia opsDia controle t ht
    have hnot : t ∉ uniqueFirst (opsDia.map (·.ticket)) := by
      intro hc
      rcases mem_uniqueFirst_fold _ [] t hc with h1 | h2
      · cases h1
      · rcases List.mem_map.mp h2 with ⟨o, ho, rfl⟩
        exact ht o ho rfl
    simpa only [App2.processDia] using
      processDia_frame_fold dataDia opsDia (uniqueFirst (opsDia.map (·.ticket)))
        controle [] t hnot

/-- Claim C10 witness: a residual sell of 40 drops the held quantity from
10 to -30 with the average cost kept at 5, and another ticker's entry is
untouched by the day. -/
theorem c10_venda_preserva_pm_witness :
    (App2.processTicketDia 20240105 exC10_ops ("PETR4") { qtd := 10, pm := 5 }).1
      = { qtd := (10:Int) - (App2.q_v exC10_ops ("PETR4") - App2.q_c exC10_ops ("PETR4")),
          pm := (5:Rat) }
  ∧ (App2.processDia 20240105 exC10_ops (fun _ => { qtd := 3, pm := 4 })).1 ("VALE3")
      = (fun _ => ({ qtd := 3, pm := 4 } : Pos)) ("VALE3") :=
  ⟨(c10_venda_preserva_pm.1) 20240105 exC10_ops ("PETR4") { qtd := 10, pm := 5 } (by decide),
   (c10_venda_preserva_pm.2) 20240105 exC10_ops (fun _ => { qtd := 3, pm := 4 }) ("VALE3")
     (by decide)⟩

/-- Claim C1 amended: the Daily Matcher sums the day's quantities but
averages the day's transaction prices with an unweighted mean -- for a day
with two buys at prices p1 and p2 and a fully matching sell, the day-trade
result uses the buy price (p1 + p2) / 2 regardless of the two buy
quantities. -/
theorem c1_media_simples (q1 q2 : Int) (p1 p2 ps : Rat) (pos : Pos)
    (h1 : 0 < q1) (h2 : 0 < q2) :
    App.processTicketDia 20240110
        [⟨20240110, 900, "VALE3", Tipo.compra, q1, p1, 0, 0⟩,
         ⟨20240110, 901, "VALE3", Tipo.compra, q2, p2, 0, 0⟩,
         ⟨20240110, 902, "VALE3", Tipo.venda, q1 + q2, ps, 0, 0⟩] ("VALE3") pos
      = (pos,
          [{ data := 20240110, ticket := "VALE3", tipo := TipoOp.dayTrade, qtd := q1 + q2,
             resultado := (ps - (p1 + p2) / 2) * ((q1 + q2 : Int) : Rat),
             volumeVenda := ((q1 + q2 : Int) : Rat) * ps, mes := 202401 }]) := by
  have hq : (0:Int) < q1 + q2 := add_pos h1 h2
  simp [App.processTicketDia, App.q_compra_dia, App.q_venda_dia, App.ops_tkt_dia,
    App.v_compra_medio, App.v_venda_medio, media, mesOf, List.filter_cons, hq]

/-- Claim C1 witness: the two-buy day at unit quantities. -/
theorem c1_media_simples_witness :
    App.processTicketDia 20240110
        [⟨20240110, 900, "VALE3", Tipo.compra, 1, 10, 0, 0⟩,
         ⟨20240110, 901, "VALE3", Tipo.compra, 3, 20, 0, 0⟩,
         ⟨20240110, 902, "VALE3", Tipo.venda, 1 + 3, 20, 0, 0⟩] ("VALE3") { qtd := 0, pm := 0 }
      = ({ qtd := 0, pm := 0 },
          [{ data := 20240110, ticket := "VALE3", tipo := TipoOp.dayTrade, qtd := 1 + 3,
             resultado := ((20:Rat) - ((10:Rat) + 20) / 2) * (((1:Int) + 3 : Int) : Rat),
             volumeVenda := (((1:Int) + 3 : Int) : Rat) * 20, mes := 202401 }]) :=
  c1_media_simples 1 3 10 20 20 { qtd := 0, pm := 0 } (by decide) (by decide)

/-- Claim C1 counterexample: on the day with buys of 1 at 10 and 3 at 20
and a sell of 4 at 20, the code's day-trade result is 20 (simple mean buy
price 15), not the 10 that the quantity-weighted mean 17.5 would give. -/
theorem c1_contraexemplo :
    (App.calcular_tudo exC1_ops).2.map (·.resultado) = [20]
  ∧ ¬ ((20:Rat) = (20 - (1*10 + 3*20)/4) * 4) := by
  constructor
  · set_option maxHeartbeats 2000000 in
    with_unfolding_all rfl
  · norm_num

/-- Absorbing a single-buy day into the position updates it by the
weighted-average rule with the per-unit fee add-on. -/
theorem compra_unica_step (d : Nat) (o : Op) (t : String) (pos : Pos)
    (ht : o.ticket = t) (hc : o.tipo = Tipo.compra) (hq : 0 < o.quantidade)
    (hpos : 0 ≤ pos.qtd) :
    (App2.processTicketDia d [o] t pos).1
      = { qtd := pos.qtd + o.quantidade,
          pm := ((pos.qtd : Rat) * pos.pm
              + (o.quantidade : Rat)
                * (o.valor + (o.taxa_corretagem + o.taxa_emolumentos) / (o.quantidade : Rat)))
            / ((pos.qtd + o.quantidade : Int) : Rat) } := by
  have hq2 : (0:Int) < pos.qtd + o.quantidade := add_pos_of_nonneg_of_pos hpos hq
  simp [App2.processTicketDia, App2.q_c, App2.q_v, App2.compras_dia, App2.vendas_dia,
    App2.ops_dia, App2.custo_compra, App2.custo_venda, App2.v_compra_m, App2.v_venda_m,
    media, List.filter_cons, ht, hc, hq, hq2, min_eq_right hq.le]

/-- Invariant of the buy-only day fold: quantity is the sum of the day
quantities and quantity times average cost is the accumulated cost. -/
theorem c3_fold (t : String) :
    ∀ (dias : List (Nat × Op)) (pos : Pos),
      (∀ dg ∈ dias, (dg.2).ticket = t ∧ (dg.2).tipo = Tipo.compra ∧ 0 < (dg.2).quantidade) →
      0 ≤ pos.qtd →
      ((dias.foldl (fun p dg => (App2.processTicketDia dg.1 [dg.2] t p).1) pos).qtd
          = pos.qtd + ((dias.map (fun dg => (dg.2).quantidade)).sum)
        ∧ ((dias.foldl (fun p dg => (App2.processTicketDia dg.1 [dg.2] t p).1) pos).qtd : Rat)
            * (dias.foldl (fun p dg => (App2.processTicketDia dg.1 [dg.2] t p).1) pos).pm
          = (pos.qtd : Rat) * pos.pm
            + ((dias.map (fun dg => ((dg.2).quantidade : Rat)
                * ((dg.2).valor + ((dg.2).taxa_corretagem + (dg.2).taxa_emolumentos)
                    / ((dg.2).quantidade : Rat)))).sum)) := by
  intro dias
  induction dias with
  | nil => intro pos h hq; simp
  | cons dg dias ih =>
      intro pos h hq
      have hdg := h dg (List.mem_cons_self _ _)
      have hrest : ∀ x ∈ dias, x.2.ticket = t ∧ x.2.tipo = Tipo.compra ∧ 0 < x.2.quantidade :=
        fun x hx => h x (List.mem_cons_of_mem _ hx)
      have hstep := compra_unica_step dg.1 dg.2 t pos hdg.1 hdg.2.1 hdg.2.2 hq
      have hq2 : (0:Int) < pos.qtd + dg.2.quantidade :=
        add_pos_of_nonneg_of_pos hq hdg.2.2
      have hq1 : 0 ≤ (App2.processTicketDia dg.1 [dg.2] t pos).1.qtd := by
        rw [hstep]; exact le_of_lt hq2
      obtain ⟨ihq, ihm⟩ := ih ((App2.processTicketDia dg.1 [dg.2] t pos).1) hrest hq1
      rw [List.foldl_cons]
      constructor
      · rw [ihq, hstep]
        simp [add_assoc]
      · rw [ihm, hstep]
        have hcast : ((pos.qtd + dg.2.quantidade : Int) : Rat) ≠ 0 := by
          exact_mod_cast ne_of_gt hq2
        simp only [List.map_cons, List.sum_cons]
        rw [mul_comm, div_mul_cancel₀ _ hcast]
        ring

/-- Claim C3 amended: over any nonempty run of buy-only days with exactly
one buy per day (positive quantities), starting from an empty position,
the final average cost is the quantity-weighted mean
(sum of quantity times (price + fee per unit)) divided by the total
quantity -- the claimed invariant; with several buys inside one day the
day mean is unweighted, so the result depends on the day grouping. -/
theorem c3_pm_formula (t : String) (dias : List (Nat × Op))
    (h : ∀ dg ∈ dias, (dg.2).ticket = t ∧ (dg.2).tipo = Tipo.compra ∧ 0 < (dg.2).quantidade)
    (hne : dias ≠ []) :
    (dias.foldl (fun p dg => (App2.processTicketDia dg.1 [dg.2] t p).1)
        { qtd := 0, pm := 0 }).qtd
      = (dias.map (fun dg => (dg.2).quantidade)).sum
  ∧ (dias.foldl (fun p dg => (App2.processTicketDia dg.1 [dg.2] t p).1)
        { qtd := 0, pm := 0 }).pm
      = ((dias.map (fun dg => ((dg.2).quantidade : Rat)
            * ((dg.2).valor + ((dg.2).taxa_corretagem + (dg.2).taxa_emolumentos)
                / ((dg.2).quantidade : Rat)))).sum)
        / (((dias.map (fun dg => (dg.2).quantidade)).sum : Int) : Rat) := by
  obtain ⟨h1, h2⟩ := c3_fold t dias { qtd := 0, pm := 0 } h (le_refl 0)
  have hQ : (0:Int) < (dias.map (fun dg => (dg.2).quantidade)).sum := by
    apply List.sum_pos
    · intro x hx
      rcases List.mem_map.mp hx with ⟨dg, hdg, rfl⟩
      exact (h dg hdg).2.2
    · intro hc
      exact hne (List.map_eq_nil_iff.mp hc)
  have hcast : (((dias.map (fun dg => (dg.2).quantidade)).sum : Int) : Rat) ≠ 0 := by
    exact_mod_cast ne_of_gt hQ
  simp only [zero_add, Int.cast_zero, zero_mul] at h1 h2
  refine ⟨h1, ?_⟩
  rw [eq_div_iff hcast, mul_comm, ← h1]
  exact h2

/-- Claim C3 witness: two single-buy days with fees, 1 at 10 plus fee 1 and
3 at 20 plus fee 2. -/
theorem c3_pm_formula_witness :
    (exC3_dias.foldl (fun p dg => (App2.processTicketDia dg.1 [dg.2] ("VALE3") p).1)
        { qtd := 0, pm := 0 }).qtd
      = (exC3_dias.map (fun dg => (dg.2).quantidade)).sum
  ∧ (exC3_dias.foldl (fun p dg => (App2.processTicketDia dg.1 [dg.2] ("VALE3") p).1)
        { qtd := 0, pm := 0 }).pm
      = ((exC3_dias.map (fun dg => ((dg.2).quantidade : Rat)
            * ((dg.2).valor + ((dg.2).taxa_corretagem + (dg.2).taxa_emolumentos)
                / ((dg.2).quantidade : Rat)))).sum)
        / (((exC3_dias.map (fun dg => (dg.2).quantidade)).sum : Int) : Rat) :=
  c3_pm_formula ("VALE3") exC3_dias (by decide) (by decide)

/-- Claim C3 counterexample: buys of 1 at 10 and 3 at 20 in one day yield
average cost 15, the same buys on two days yield 17.5, which is what the
claimed quantity-weighted formula gives -- so the claimed formula fails on
the one-day grouping and the fold is not grouping-invariant. -/
theorem c3_contraexemplo :
    ((App2.calcular_tudo exC3_umDia).1.1 ("VALE3")).pm = 15
  ∧ ((App2.calcular_tudo exC3_doisDias).1.1 ("VALE3")).pm = 35/2
  ∧ ((1:Rat) * (10 + 0/1) + 3 * (20 + 0/3)) / ((1:Rat) + 3) = 35/2
  ∧ ¬ ((15:Rat) = 35/2) := by
  refine ⟨?_, ?_, by norm_num, by norm_num⟩
  · set_option maxHeartbeats 2000000 in
    with_unfolding_all rfl
  · set_option maxHeartbeats 2000000 in
    with_unfolding_all rfl

/-- Uppercasing leaves whitespace characters unchanged. -/
theorem toUpper_whitespace (c : Char) (h : c.isWhitespace = true) : Char.toUpper c = c := by
  simp [Char.isWhitespace, or_assoc] at h
  rcases h with h | h | h | h <;> subst h <;> decide

/-- A list whose strip is empty consists of whitespace only. -/
theorem stripChars_eq_nil (cs : List Char) (h : stripChars cs = []) :
    ∀ c ∈ cs, c.isWhitespace = true := by
  unfold stripChars at h
  rw [List.reverse_eq_nil_iff, List.dropWhile_eq_nil_iff] at h
  intro c hc
  rw [← List.takeWhile_append_dropWhile (p := Char.isWhitespace) (l := cs)] at hc
  rcases List.mem_append.mp hc with h1 | h2
  · exact List.mem_takeWhile_imp h1
  · exact h _ (List.mem_reverse.mpr h2)

/-- Uppercasing a whitespace-only string is the identity. -/
theorem upperChars_of_whitespace (s : String)
    (hws : ∀ c ∈ s.data, c.isWhitespace = true) : upperChars s = s.data := by
  unfold upperChars
  calc s.data.map Char.toUpper = s.data.map id :=
        List.map_congr_left (fun c hc => toUpper_whitespace c (hws c hc))
    _ = s.data := List.map_id _

/-- The boolean ticker matcher recognises exactly the declarative ticker
shape: four capital letters then one or two digits. -/
theorem match_padrao_iff (cs : List Char) : match_padrao cs = true ↔ PadraoTicker cs := by
  constructor
  · intro h
    rcases cs with _ | ⟨a, _ | ⟨b, _ | ⟨c, _ | ⟨d, resto⟩⟩⟩⟩
    · simp [match_padrao] at h
    · simp [match_padrao] at h
    · simp [match_padrao] at h
    · simp [match_padrao] at h
    · simp only [match_padrao, Bool.and_eq_true, Bool.or_eq_true, decide_eq_true_eq,
        List.all_eq_true] at h
      exact ⟨a, b, c, d, resto, rfl, h.1.1.1.1.1, h.1.1.1.1.2, h.1.1.1.2, h.1.1.2, h.1.2, h.2⟩
  · rintro ⟨a, b, c, d, resto, rfl, h1, h2, h3, h4, h5, h6⟩
    simp only [match_padrao, Bool.and_eq_true, Bool.or_eq_true, decide_eq_true_eq,
      List.all_eq_true]
    exact ⟨⟨⟨⟨⟨h1, h2⟩, h3⟩, h4⟩, h5⟩, h6⟩

/-- Claim C6 amended: the gate of `app.py` accepts a ticker exactly when
its normalisation (uppercase then strip) matches the four-letters-then-one-
or-two-digits shape; the gate of `app_2.py` does not enforce this shape. -/
theorem c6_validar_ticket_padrao (s : String) :
    (App.validar_ticket s).1 = true ↔ PadraoTicker (stripChars (upperChars s)) := by
  simp only [App.validar_ticket]
  by_cases hguard : s = ("") ∨ stripChars s.data = []
  · rw [if_pos hguard]
    constructor
    · intro h; cases h
    · intro hP
      exfalso
      have hnil : stripChars (upperChars s) = [] := by
        rcases hguard with rfl | hstrip
        · decide
        · rw [upperChars_of_whitespace s (stripChars_eq_nil _ hstrip)]
          exact hstrip
      rcases hP with ⟨a, b, c, d, resto, heq, _⟩
      rw [hnil] at heq
      cases heq
  · rw [if_neg hguard]
    rw [← match_padrao_iff]
    by_cases hm : match_padrao (stripChars (upperChars s)) = true
    · simp [hm]
    · simp [hm]

/-- Claim C6 counterexample: the gate of `app_2.py` accepts the ticker
ABCDE (five letters, no digits) with an empty error list, although its
normalised form fails the ticker pattern and the gate of `app.py` rejects
it. -/
theorem c6_contraexemplo :
    App2.validar_operacao ("ABCDE") ("Compra") 10 10 20240101 20240601 = []
  ∧ match_padrao (stripChars (upperChars ("ABCDE"))) = false
  ∧ (App.validar_ticket ("ABCDE")).1 = false := by
  exact ⟨by decide, by decide, by decide⟩
